import Mathlib

/-!
Verification of the sentiment/return alignment pipeline.

Shallow embedding of `src/sentiment_analysis.py` (class `SentimentReturnAnalyzer`)
and of the load-stage error handling of `src/eda_analysis.py` (class `EdaAnalysis`).

Conventions of the embedding:
* pandas timestamps are modelled by `PyDateTime` (calendar fields plus an optional
  fixed UTC offset; `tz = none` models a timezone-naive value);
* a pandas datetime column is a `List (Option PyDateTime)`, where `none` models
  the `NaT` ("not-a-date") sentinel;
* float quantities (sentiment scores, closing prices, returns) are modelled by `ℚ`;
  a non-finite float result (`NaN`, `±inf`) is modelled by `none : Option ℚ`;
* the general-purpose parser behind `pd.to_datetime(..., errors="coerce")` is kept
  abstract as a parameter `primary : String → Option PyDateTime` (per-cell, `none`
  models coercion to `NaT`);
* code that can raise is modelled with `Except`.
-/

/-- A Python/pandas timestamp: calendar fields plus an optional fixed UTC offset
in minutes.  `tz = none` models a timezone-naive value. -/
structure PyDateTime where
  year : Nat
  month : Nat
  day : Nat
  hour : Nat
  minute : Nat
  second : Nat
  tz : Option Int
deriving DecidableEq, Repr

/-- Python regex `\s` / `str.strip` whitespace (ASCII part). -/
def isPySpace (c : Char) : Bool :=
  c = ' ' || c = '\t' || c = '\n' || c = '\r' || c = '\x0b' || c = '\x0c'

/-- `str.strip()`: drop leading and trailing whitespace. -/
def stripWs (l : List Char) : List Char :=
  ((l.dropWhile isPySpace).reverse.dropWhile isPySpace).reverse

/-- A maximal whitespace run of length ≥ 2 is emitted as a single space; a run
of length ≤ 1 is kept verbatim. -/
def flushRun (run : List Char) : List Char :=
  if 2 ≤ run.length then [' '] else run

/-- Worker for `collapseWs`; `run` accumulates the current whitespace run. -/
def collapseWsAux (run : List Char) : List Char → List Char
  | [] => flushRun run
  | c :: rest =>
    if isPySpace c then collapseWsAux (run ++ [c]) rest
    else flushRun run ++ c :: collapseWsAux [] rest

/-- `re.sub(r"\s{2,}", " ", ·)`: every run of two or more whitespace characters is
replaced by a single space; an isolated whitespace character is kept as is. -/
def collapseWs (l : List Char) : List Char :=
  collapseWsAux [] l

/-- Lines 41–46 of `sentiment_analysis.py`:
`.astype(str).str.strip().str.replace(r"\s{2,}", " ", regex=True)`. -/
def cleanDateString (s : String) : String :=
  ⟨collapseWs (stripWs s.data)⟩

/-- Numeric value of a decimal digit character. -/
def digVal (c : Char) : Nat := c.toNat - 48

/-- One numeric `strptime` field that the CPython `_strptime` regex matches as
either two digits with value in `[lo2, hi2]` (e.g. `%m` ↦ `1[0-2]|0[1-9]`) or a
single digit with value in `[lo1, 9]` (e.g. `%m` ↦ `[1-9]`, `%M` ↦ `\d`).
In the format under study every numeric field is followed by a non-digit
literal, so the greedy two-digit reading needs no backtracking. -/
def parseField2 (lo2 hi2 lo1 : Nat) : List Char → Option (Nat × List Char)
  | [] => none
  | [c1] =>
    if c1.isDigit then
      let v := digVal c1
      if lo1 ≤ v ∧ v ≤ 9 then some (v, []) else none
    else none
  | c1 :: c2 :: rest =>
    if c1.isDigit then
      if c2.isDigit then
        let v := digVal c1 * 10 + digVal c2
        if lo2 ≤ v ∧ v ≤ hi2 then some (v, rest) else none
      else
        let v := digVal c1
        if lo1 ≤ v ∧ v ≤ 9 then some (v, c2 :: rest) else none
    else none

/-- `%Y` in `_strptime`: exactly four digits. -/
def parseYear4 : List Char → Option (Nat × List Char)
  | a :: b :: c :: d :: rest =>
    if a.isDigit && b.isDigit && c.isDigit && d.isDigit then
      some (((digVal a * 10 + digVal b) * 10 + digVal c) * 10 + digVal d, rest)
    else none
  | _ => none

/-- A literal character of the format string. -/
def parseLit (ch : Char) : List Char → Option (List Char)
  | [] => none
  | c :: rest => if c = ch then some rest else none

/-- A whitespace character in a `strptime` format matches `\s+`. -/
def parseWsRun : List Char → Option (List Char)
  | [] => none
  | c :: rest => if isPySpace c then some (rest.dropWhile isPySpace) else none

/-- `%p`: the locale AM/PM markers, matched case-insensitively.
Returns `true` for PM. -/
def parseAmPm : List Char → Option (Bool × List Char)
  | a :: b :: rest =>
    if a.toLower = 'a' ∧ b.toLower = 'm' then some (false, rest)
    else if a.toLower = 'p' ∧ b.toLower = 'm' then some (true, rest)
    else none
  | _ => none

/-- Gregorian leap year, as `datetime` uses. -/
def isLeap (y : Nat) : Bool :=
  (y % 4 = 0 && y % 100 ≠ 0) || y % 400 = 0

/-- Length of a month, as validated by the `datetime` constructor. -/
def daysInMonth (y m : Nat) : Nat :=
  if m = 2 then (if isLeap y then 29 else 28)
  else if m = 4 ∨ m = 6 ∨ m = 9 ∨ m = 11 then 30
  else 31

/-- The field part of `datetime.strptime(s, "%m/%d/%Y %I:%M:%S %p")`: the
`(year, month, day, hour, minute, second)` tuple when the whole string matches
the `_strptime` regex of the format and the fields form a date the `datetime`
constructor accepts (year ≥ 1, day within the month, no leap second);
`none` where the Python call raises `ValueError`. -/
def strptimeFields (s : String) : Option (Nat × Nat × Nat × Nat × Nat × Nat) := do
  let cs := s.data
  let (m, cs) ← parseField2 1 12 1 cs
  let cs ← parseLit '/' cs
  let (d, cs) ← parseField2 1 31 1 cs
  let cs ← parseLit '/' cs
  let (y, cs) ← parseYear4 cs
  let cs ← parseWsRun cs
  let (h12, cs) ← parseField2 1 12 1 cs
  let cs ← parseLit ':' cs
  let (mi, cs) ← parseField2 0 59 0 cs
  let cs ← parseLit ':' cs
  let (sec, cs) ← parseField2 0 61 0 cs
  let cs ← parseWsRun cs
  let (pm, cs) ← parseAmPm cs
  if cs = [] then
    let hour := if pm then (if h12 = 12 then 12 else h12 + 12)
                else (if h12 = 12 then 0 else h12)
    if 1 ≤ y ∧ d ≤ daysInMonth y m ∧ sec ≤ 59 then
      some (y, m, d, hour, mi, sec)
    else none
  else none

/-- `datetime.strptime(s, "%m/%d/%Y %I:%M:%S %p")`, returning `none` where the
Python call raises `ValueError`.  The result carries no timezone (`tz = none`):
the format has no `%z`/`%Z` directive, so `strptime` always builds a naive
datetime. -/
def strptimeCustom (s : String) : Option PyDateTime :=
  (strptimeFields s).map fun f =>
    ⟨f.1, f.2.1, f.2.2.1, f.2.2.2.1, f.2.2.2.2.1, f.2.2.2.2.2, none⟩

/-- A value read back from a pandas cell: a string, a timestamp, or the
`NaT` sentinel. -/
inductive Cell where
  | str : String → Cell
  | dt : PyDateTime → Cell
  | NaT : Cell
deriving DecidableEq, Repr

/-- `SentimentReturnAnalyzer.try_parse_custom_date` (lines 77–84): run
`datetime.strptime(date_str, "%m/%d/%Y %I:%M:%S %p")`; any exception — a
`ValueError` on a non-matching string, or the `TypeError` that `strptime`
raises when handed a non-string such as `pd.NaT` — is caught and turned into
the `pd.NaT` sentinel (`none`). -/
def try_parse_custom_date : Cell → Option PyDateTime
  | .str s => strptimeCustom s
  | .dt _ => none
  | .NaT => none

/-- Reading a pandas datetime cell back from a parsed column: a missing value
reads back as the `NaT` sentinel, a present value as a timestamp object. -/
def cellOfOption : Option PyDateTime → Cell
  | none => .NaT
  | some d => .dt d

/-- `Series.dt.tz_localize(None)` on one timestamp: drop the timezone. -/
def stripTz (d : PyDateTime) : PyDateTime :=
  { d with tz := none }

/-- A datetime column holds a mix of timezone-aware and timezone-naive values.
In pandas such a column is object dtype (a uniformly aware or uniformly naive
column gets a datetime64 dtype), and the `.dt` accessor raises a `TypeError`
on object dtype. -/
def mixedTz (col : List (Option PyDateTime)) : Bool :=
  (col.any fun v => match v with | some d => d.tz.isSome | none => false) &&
  (col.any fun v => match v with | some d => d.tz.isNone | none => false)

/-- The date-normalization part of `SentimentReturnAnalyzer.load_data`
(lines 41–64), for one news date column:

* line 41–46: each raw cell is cast to `str`, stripped, and whitespace-collapsed;
* line 47: the general-purpose parse `pd.to_datetime(..., errors="coerce")`
  (the abstract `primary`) replaces the column, coercing failures to `NaT`;
* lines 50–55: if any cell is `NaT`, each such cell is re-parsed with
  `try_parse_custom_date(self.news_df.at[i, "date"])` — note that the argument
  is the cell of the already-coerced column, read back via `cellOfOption`;
* line 61: `self.news_df["date"].dt.tz_localize(None)` makes the kept column
  values naive — but when the parsed column genuinely mixes aware and naive
  values it is object dtype and the `.dt` accessor itself raises a
  `TypeError`, aborting the load (the `mixedTz` branch below); on a
  timezone-uniform column the strip succeeds (`stripTz` per cell);
* line 64: the re-parsed values are assigned at the `NaT` positions. -/
def loadNewsDates (primary : String → Option PyDateTime) (raw : List String) :
    Except String (List (Option PyDateTime)) :=
  let parsed := (raw.map cleanDateString).map primary
  if parsed.any Option.isNone then
    if mixedTz parsed then
      Except.error "TypeError: dt accessor on an object-dtype column (mixed timezone-aware and timezone-naive values)"
    else
      Except.ok (parsed.map fun v =>
        if v.isNone then try_parse_custom_date (cellOfOption v)
        else Option.map stripTz v)
  else Except.ok parsed

/-- `[Debug] Unparsed news dates after fallback parsing` (lines 70–71): the
number of cells still `NaT` after both passes. -/
def unparsedCount (col : List (Option PyDateTime)) : Nat :=
  (col.filter Option.isNone).length

/-- `Series.dt.normalize()`: truncate the time of day to midnight, keeping the
timezone. -/
def pdNormalize (d : PyDateTime) : PyDateTime :=
  { d with hour := 0, minute := 0, second := 0 }

/-- Total order key used to sort and group timestamps (lexicographic on the
calendar fields; the columns under study are uniformly naive). -/
def dateKey (d : PyDateTime) : Nat :=
  ((((d.year * 13 + d.month) * 32 + d.day) * 24 + d.hour) * 60 + d.minute) * 60 + d.second

/-- Comparison of timestamps by `dateKey`. -/
def dtLe (a b : PyDateTime) : Prop := dateKey a ≤ dateKey b

instance : DecidableRel dtLe := fun _ _ => Nat.decLe _ _

instance : IsTotal PyDateTime dtLe := ⟨fun a b => Nat.le_total (dateKey a) (dateKey b)⟩

instance : IsTrans PyDateTime dtLe := ⟨fun _ _ _ => Nat.le_trans⟩

/-- The distinct, non-`NaT` group keys of `news_df.groupby("date")`, in the
ascending order pandas produces (`sort=True` is the groupby default). -/
def aggKeys (rows : List (Option PyDateTime × ℚ)) : List PyDateTime :=
  List.insertionSort dtLe (rows.filterMap Prod.fst).dedup

/-- The mean sentiment of the rows whose date cell equals `k` exactly. -/
def groupMean (rows : List (Option PyDateTime × ℚ)) (k : PyDateTime) : ℚ :=
  let g := rows.filter fun r => r.1 = some k
  (g.map Prod.snd).sum / g.length

/-- `SentimentReturnAnalyzer.aggregate_sentiment` (lines 98–104):
`news_df.groupby("date")["sentiment"].mean().reset_index()`.  Rows are grouped
by the exact value of the `date` cell; `NaT` rows are dropped (`groupby`
excludes null keys); each group contributes one output row holding the
arithmetic mean of its sentiment scores. -/
def aggregate_sentiment (rows : List (Option PyDateTime × ℚ)) :
    List (PyDateTime × ℚ) :=
  (aggKeys rows).map fun k => (k, groupMean rows k)

/-- Ordering of price bars by date, as used by `sort_values("date")`. -/
def barLe (a b : PyDateTime × ℚ) : Prop := dtLe a.1 b.1

instance : DecidableRel barLe := fun _ _ => Nat.decLe _ _

instance : IsTotal (PyDateTime × ℚ) barLe := ⟨fun _ _ => Nat.le_total _ _⟩

instance : IsTrans (PyDateTime × ℚ) barLe := ⟨fun _ _ _ => Nat.le_trans⟩

/-- Worker for `pctChange`: `prev` is the previous closing price.  A division
whose denominator is zero yields a non-finite float (`±inf` or `NaN`),
modelled as `none`. -/
def pctChangeAux (prev : ℚ) : List ℚ → List (Option ℚ)
  | [] => []
  | c :: rest => (if prev = 0 then none else some (c / prev - 1)) :: pctChangeAux c rest

/-- `Series.pct_change()` on the closing prices: the first position has no
previous value (`NaN`, modelled `none`); position `i > 0` holds
`close[i] / close[i-1] - 1`. -/
def pctChange : List ℚ → List (Option ℚ)
  | [] => []
  | c :: rest => none :: pctChangeAux c rest

/-- `SentimentReturnAnalyzer.calculate_returns` (lines 106–113):
`stock_df.sort_values("date")` followed by
`stock_df["daily_return"] = stock_df["close"].pct_change()`.  Each output row
pairs a (date, close) bar, in date-sorted order, with its daily return.
Caveat: `sort_values` uses pandas' default `kind='quicksort'`, whose order on
equal dates is unspecified (documented not stable); the embedding must pick
one concrete ascending-by-date order and uses an insertion sort, so only
properties independent of the tie order are proved about this definition. -/
def calculate_returns (bars : List (PyDateTime × ℚ)) :
    List ((PyDateTime × ℚ) × Option ℚ) :=
  let sorted := List.insertionSort barLe bars
  sorted.zip (pctChange (sorted.map Prod.snd))

/-- `SentimentReturnAnalyzer.merge_data`, merge step (lines 120–128): both date
columns are truncated to midnight (`dt.normalize()`), then
`pd.merge(daily_sentiment, stock_df[["date", "daily_return"]], on="date",
how="inner")` keeps, for each sentiment row in order, the matching stock rows
in order. -/
def merge_data (sent : List (PyDateTime × ℚ)) (stock : List (PyDateTime × Option ℚ)) :
    List (PyDateTime × ℚ × Option ℚ) :=
  let s := sent.map fun p => (pdNormalize p.1, p.2)
  let r := stock.map fun p => (pdNormalize p.1, p.2)
  s.flatMap fun a => (r.filter fun b => b.1 = a.1).map fun b => (a.1, a.2, b.2)

/-- The console message of `merge_data` (lines 130–133): the empty outcome is
flagged with a warning, the non-empty one with a success message carrying the
record count. -/
def mergeMessage (merged : List (PyDateTime × ℚ × Option ℚ)) : String :=
  if merged.isEmpty then
    "[Warning] Merged DataFrame is empty. Check date alignment and input data."
  else
    "[Info] Successfully merged data. Records: " ++ toString merged.length

/-- A sample general-purpose parser for concrete runs: recognises two ISO-like
strings, one carrying a UTC offset (hence a timezone-aware timestamp) and one
naive, and coerces everything else to `NaT`. -/
def primarySample (s : String) : Option PyDateTime :=
  if s = "2021-06-03 10:00:00+00:00" then some ⟨2021, 6, 3, 10, 0, 0, some 0⟩
  else if s = "2021-06-04 11:00:00" then some ⟨2021, 6, 4, 11, 0, 0, none⟩
  else none

/- Concrete timestamps reused by the concrete-input theorems. -/

/-- 2021-01-01 (midnight, naive). -/
def jan1 : PyDateTime := ⟨2021, 1, 1, 0, 0, 0, none⟩

/-- 2021-01-02 (midnight, naive). -/
def jan2 : PyDateTime := ⟨2021, 1, 2, 0, 0, 0, none⟩

/-- 2021-01-03 (midnight, naive). -/
def jan3 : PyDateTime := ⟨2021, 1, 3, 0, 0, 0, none⟩

/-- 2021-01-04 (midnight, naive). -/
def jan4 : PyDateTime := ⟨2021, 1, 4, 0, 0, 0, none⟩

/-- 2021-02-01 (midnight, naive). -/
def feb1 : PyDateTime := ⟨2021, 2, 1, 0, 0, 0, none⟩

/-- 2021-03-01 (midnight, naive). -/
def mar1 : PyDateTime := ⟨2021, 3, 1, 0, 0, 0, none⟩

/-- 2021-01-15 09:00:00 (naive). -/
def jan15at9 : PyDateTime := ⟨2021, 1, 15, 9, 0, 0, none⟩

/-- 2021-01-15 17:00:00 (naive). -/
def jan15at17 : PyDateTime := ⟨2021, 1, 15, 17, 0, 0, none⟩

/-- Merge example input: the sentiment side of the aligner example. -/
def exSentiment : List (PyDateTime × ℚ) := [(jan1, 1/2), (jan2, 1/3), (jan4, 1/4)]

/-- Merge example input: the return side of the aligner example. -/
def exReturns : List (PyDateTime × Option ℚ) :=
  [(jan2, some (1/100)), (jan3, some (1/50)), (jan4, some (-1/100))]

/-! Helper lemmas -/

/-- Sanity checks of the `strptime` embedding on concrete strings: a strict
match parses (with the 12-hour clock converted), and trailing input, an
impossible calendar date, or a different format are rejected. -/
theorem strptimeCustom_examples :
    strptimeCustom "01/15/2021 09:30:00 AM" = some ⟨2021, 1, 15, 9, 30, 0, none⟩ ∧
    strptimeCustom "1/15/2021 9:30:00 pm" = some ⟨2021, 1, 15, 21, 30, 0, none⟩ ∧
    strptimeCustom "12/31/2020 12:00:00 AM" = some ⟨2020, 12, 31, 0, 0, 0, none⟩ ∧
    strptimeCustom "02/30/2021 09:30:00 AM" = none ∧
    strptimeCustom "2021-01-15" = none ∧
    strptimeCustom "01/15/2021 09:30:00 AM " = none ∧
    cleanDateString "  01/15/2021   09:30:00 AM " = "01/15/2021 09:30:00 AM" := by
  refine ⟨by decide, by decide, by decide, by decide, by decide, by decide, by decide⟩

/-- Whatever `strptime` under this format returns is timezone-naive. -/
theorem strptimeCustom_tz_none {s : String} {d : PyDateTime}
    (h : strptimeCustom s = some d) : d.tz = none := by
  simp only [strptimeCustom, Option.map_eq_some'] at h
  obtain ⟨f, -, rfl⟩ := h
  rfl

/-- Membership in the first projection of an inner join. -/
theorem mem_map_fst_innerJoin {α β γ : Type} [DecidableEq α]
    (s : List (α × β)) (r : List (α × γ)) (d : α) :
    (d ∈ (s.flatMap fun a =>
        (r.filter fun b => b.1 = a.1).map fun b => (a.1, a.2, b.2)).map fun x => x.1) ↔
      (d ∈ s.map Prod.fst ∧ d ∈ r.map Prod.fst) := by
  constructor
  · intro h
    rw [List.mem_map] at h
    obtain ⟨x, hx, rfl⟩ := h
    rw [List.mem_flatMap] at hx
    obtain ⟨a, ha, hx⟩ := hx
    rw [List.mem_map] at hx
    obtain ⟨b, hb, rfl⟩ := hx
    rw [List.mem_filter] at hb
    refine ⟨List.mem_map_of_mem _ ha, ?_⟩
    have hb1 : b.1 = a.1 := by simpa using hb.2
    rw [← hb1]
    exact List.mem_map_of_mem _ hb.1
  · rintro ⟨hs, hr⟩
    rw [List.mem_map] at hs hr
    obtain ⟨a, ha, rfl⟩ := hs
    obtain ⟨b, hb, hb1⟩ := hr
    rw [List.mem_map]
    refine ⟨(a.1, a.2, b.2), ?_, rfl⟩
    rw [List.mem_flatMap]
    exact ⟨a, ha, List.mem_map_of_mem _ (List.mem_filter.mpr ⟨hb, by simp [hb1]⟩)⟩

/-- A `flatMap` only depends on the values of its function on the list. -/
theorem flatMap_congr_left {α β : Type} {l : List α} {f g : α → List β}
    (h : ∀ a ∈ l, f a = g a) : l.flatMap f = l.flatMap g := by
  induction l with
  | nil => rfl
  | cons a l ih =>
    rw [List.flatMap_cons, List.flatMap_cons, h a (List.mem_cons_self a l),
      ih fun x hx => h x (List.mem_cons_of_mem a hx)]

/-- Splitting a list by a Boolean predicate preserves its length. -/
theorem length_filter_add_length_filter_not {α : Type} (l : List α) (p : α → Bool) :
    (l.filter p).length + (l.filter fun a => !p a).length = l.length := by
  induction l with
  | nil => rfl
  | cons a l ih =>
    rw [List.filter_cons, List.filter_cons]
    cases hpa : p a <;> simp only [hpa, Bool.not_true, Bool.not_false, if_true, if_false,
      Bool.false_eq_true, Bool.true_eq_false, List.length_cons, reduceIte] <;> omega

/-- When the keys of `r` carry no duplicate, at most one element matches `k`. -/
theorem length_filter_key_le_one {α β : Type} [DecidableEq α]
    (r : List (α × β)) (k : α) (h : (r.map Prod.fst).Nodup) :
    (r.filter fun b => b.1 = k).length ≤ 1 := by
  induction r with
  | nil => simp
  | cons b r ih =>
    rw [List.map_cons, List.nodup_cons] at h
    rw [List.filter_cons]
    by_cases hb : b.1 = k
    · rw [if_pos (by simpa using hb)]
      have hnil : (r.filter fun b => b.1 = k).length = 0 := by
        rw [List.length_eq_zero, List.filter_eq_nil_iff]
        intro c hc hck
        have hck' : c.1 = k := by simpa using hck
        exact h.1 ((hb.trans hck'.symm) ▸ List.mem_map_of_mem Prod.fst hc)
      simp [hnil]
    · rw [if_neg (by simpa using hb)]
      exact ih h.2

/-- An inner join yields at most one row per left row when the right keys are
duplicate-free. -/
theorem innerJoin_length_le_left {α β γ δ : Type} [DecidableEq α]
    (s : List (α × β)) (r : List (α × γ)) (g : α × β → α × γ → δ)
    (h : (r.map Prod.fst).Nodup) :
    (s.flatMap fun a => (r.filter fun b => b.1 = a.1).map (g a)).length ≤ s.length := by
  induction s with
  | nil => simp
  | cons a s ih =>
    rw [List.flatMap_cons, List.length_append, List.length_map, List.length_cons]
    have h1 := length_filter_key_le_one r a.1 h
    omega

/-- An inner join consumes each right row at most once when the left keys are
duplicate-free. -/
theorem innerJoin_length_le_right {α β γ δ : Type} [DecidableEq α]
    (s : List (α × β)) (r : List (α × γ)) (g : α × β → α × γ → δ)
    (h : (s.map Prod.fst).Nodup) :
    (s.flatMap fun a => (r.filter fun b => b.1 = a.1).map (g a)).length ≤ r.length := by
  induction s generalizing r with
  | nil => simp
  | cons a s ih =>
    rw [List.map_cons, List.nodup_cons] at h
    rw [List.flatMap_cons, List.length_append, List.length_map]
    have hne : ∀ a' ∈ s, a'.1 ≠ a.1 := by
      intro a' ha' heq
      exact h.1 (heq ▸ List.mem_map_of_mem Prod.fst ha')
    have hsw : (s.flatMap fun a' => (r.filter fun b => b.1 = a'.1).map (g a')) =
        (s.flatMap fun a' =>
          (((r.filter fun b => !decide (b.1 = a.1)).filter fun b => b.1 = a'.1)).map (g a')) := by
      apply flatMap_congr_left
      intro a' ha'
      rw [List.filter_filter]
      congr 1
      apply List.filter_congr
      intro b _
      by_cases hbk : b.1 = a'.1
      · simp [hbk, hne a' ha']
      · simp [hbk]
    rw [hsw]
    have h2 := ih (r := r.filter fun b => !decide (b.1 = a.1)) h.2
    have h3 : (r.filter fun b => b.1 = a.1).length +
        (r.filter fun b => !decide (b.1 = a.1)).length = r.length :=
      length_filter_add_length_filter_not r _
    omega

/-- An inner join of disjointly-keyed inputs is empty. -/
theorem merge_data_eq_nil_of_disjoint
    (sent : List (PyDateTime × ℚ)) (stock : List (PyDateTime × Option ℚ))
    (h : ∀ d ∈ sent.map fun p => pdNormalize p.1,
      d ∉ stock.map fun p => pdNormalize p.1) :
    merge_data sent stock = [] := by
  unfold merge_data
  rw [List.flatMap_eq_nil_iff]
  intro a ha
  rw [List.map_eq_nil_iff, List.filter_eq_nil_iff]
  intro b hb hba
  have hba' : b.1 = a.1 := by simpa using hba
  rw [List.mem_map] at ha hb
  obtain ⟨p, hp, rfl⟩ := hb
  obtain ⟨q, hq, rfl⟩ := ha
  have hba2 : pdNormalize p.1 = pdNormalize q.1 := hba'
  have hmem : pdNormalize q.1 ∈ sent.map fun p => pdNormalize p.1 :=
    List.mem_map_of_mem _ hq
  exact h _ hmem (hba2 ▸ List.mem_map_of_mem (fun p => pdNormalize p.1) hp)

/-- The success message of `merge_data` never collides with its warning
message, whatever the record count. -/
theorem infoMessage_ne_warning (n : Nat) :
    "[Info] Successfully merged data. Records: " ++ toString n ≠
      "[Warning] Merged DataFrame is empty. Check date alignment and input data." := by
  intro h
  have h2 := congrArg (fun s : String => s.data[1]?) h
  simp only [String.data_append] at h2
  rw [List.getElem?_append, if_pos (by decide)] at h2
  exact absurd h2 (by decide)

/-- `pctChangeAux` preserves the length of the price tail. -/
theorem pctChangeAux_length (prev : ℚ) (cs : List ℚ) :
    (pctChangeAux prev cs).length = cs.length := by
  induction cs generalizing prev with
  | nil => rfl
  | cons c rest ih => simp [pctChangeAux, ih]

/-- `pct_change` preserves the column length. -/
theorem pctChange_length (cs : List ℚ) : (pctChange cs).length = cs.length := by
  cases cs with
  | nil => rfl
  | cons c rest => simp [pctChange, pctChangeAux_length]

/-- The value of `pctChangeAux` at any position, in terms of the price at that
position and the price one step earlier. -/
theorem pctChangeAux_get : ∀ (rest : List ℚ) (prev : ℚ) (i : Nat) (p c : ℚ),
    (prev :: rest)[i]? = some p → rest[i]? = some c →
    (pctChangeAux prev rest)[i]? = some (if p = 0 then none else some (c / p - 1))
  | [], _, i, _, _, _, hc => by simp at hc
  | c0 :: rest, prev, 0, p, c, hp, hc => by
    simp only [List.getElem?_cons_zero, Option.some.injEq] at hp hc
    subst hp; subst hc
    simp [pctChangeAux]
  | c0 :: rest, prev, i + 1, p, c, hp, hc => by
    rw [List.getElem?_cons_succ] at hp hc
    rw [pctChangeAux, List.getElem?_cons_succ]
    exact pctChangeAux_get rest c0 i p c hp hc

/-- The value of `pct_change` at position `i + 1`, in terms of the closes at
positions `i` and `i + 1`. -/
theorem pctChange_get (cs : List ℚ) (i : Nat) (p c : ℚ)
    (hp : cs[i]? = some p) (hc : cs[i + 1]? = some c) :
    (pctChange cs)[i + 1]? = some (if p = 0 then none else some (c / p - 1)) := by
  match cs with
  | [] => simp at hp
  | c0 :: rest =>
    rw [List.getElem?_cons_succ] at hc
    rw [pctChange, List.getElem?_cons_succ]
    exact pctChangeAux_get rest c0 i p c hp hc

/-- The return column of `calculate_returns` is `pct_change` of the sorted
closes. -/
theorem calculate_returns_map_snd (bars : List (PyDateTime × ℚ)) :
    (calculate_returns bars).map Prod.snd =
      pctChange ((List.insertionSort barLe bars).map Prod.snd) := by
  unfold calculate_returns
  apply List.map_snd_zip
  rw [pctChange_length, List.length_map]

/-! Claim theorems -/


/-- **C10**: `try_parse_custom_date` is total over every cell value it can be
handed (a string, a timestamp object, or the `NaT` sentinel): it returns
either a timezone-naive datetime or the `NaT` sentinel, and every exception —
the `ValueError` of a failed format match or the `TypeError` on a non-string —
is caught inside the function, never propagated to the caller. -/
theorem try_parse_custom_date_total_naive :
    (∀ c : Cell, try_parse_custom_date c = none ∨
      ∃ d, try_parse_custom_date c = some d ∧ d.tz = none) ∧
    try_parse_custom_date Cell.NaT = none ∧
    (∀ d, try_parse_custom_date (Cell.dt d) = none) := by
  refine ⟨?_, rfl, fun d => rfl⟩
  intro c
  match c with
  | .NaT => exact Or.inl rfl
  | .dt _ => exact Or.inl rfl
  | .str s =>
    match h : strptimeCustom s with
    | none => exact Or.inl h
    | some d => exact Or.inr ⟨d, h, strptimeCustom_tz_none h⟩

/-- **C1**: a record whose raw date string `"01/15/2021 09:30:00 AM"` fails the
primary general-purpose parse but matches the fallback format exactly does
*not* get the calendar date 2021-01-15: the fallback is invoked on the cell of
the already-coerced column (which holds `NaT`), not on the raw string, so the
record's date stays the `NaT` sentinel even though `strptimeCustom` would have
parsed the raw string. -/
theorem fallback_parser_receives_coerced_sentinel :
    strptimeCustom "01/15/2021 09:30:00 AM" = some ⟨2021, 1, 15, 9, 30, 0, none⟩ ∧
    primarySample (cleanDateString "01/15/2021 09:30:00 AM") = none ∧
    loadNewsDates primarySample ["2021-06-04 11:00:00", "01/15/2021 09:30:00 AM"] =
      Except.ok [some ⟨2021, 6, 4, 11, 0, 0, none⟩, none] :=
  ⟨by decide, by decide, rfl⟩

/-- **C3**: `merge_data` is an inner join on the (normalized) calendar date: a
date appears in the merged result exactly when it appears in both inputs, and
on the example tables the merged date set is `{2021-01-02, 2021-01-04}`. -/
theorem merge_data_inner_join_on_date :
    (∀ (sent : List (PyDateTime × ℚ)) (stock : List (PyDateTime × Option ℚ))
        (d : PyDateTime),
        (d ∈ (merge_data sent stock).map fun x => x.1) ↔
          ((d ∈ sent.map fun p => pdNormalize p.1) ∧
            (d ∈ stock.map fun p => pdNormalize p.1))) ∧
    (merge_data exSentiment exReturns).map (fun x => x.1) = [jan2, jan4] := by
  constructor
  · intro sent stock d
    have h := mem_map_fst_innerJoin (sent.map fun p => (pdNormalize p.1, p.2))
      (stock.map fun p => (pdNormalize p.1, p.2)) d
    rw [List.map_map, List.map_map] at h
    exact h
  · norm_num [merge_data, exSentiment, exReturns, pdNormalize, jan1, jan2, jan3, jan4,
      List.filter]

/-- **C4**: when neither input table repeats a (normalized) date — the
uniqueness `DailySentiment` guarantees by construction and the caller is
responsible for on the price side — the merged record count is at most the
minimum of the two input sizes. -/
theorem merge_data_count_le_min
    (sent : List (PyDateTime × ℚ)) (stock : List (PyDateTime × Option ℚ))
    (hs : (sent.map fun p => pdNormalize p.1).Nodup)
    (hr : (stock.map fun p => pdNormalize p.1).Nodup) :
    (merge_data sent stock).length ≤ min sent.length stock.length := by
  have hs' : ((sent.map fun p => (pdNormalize p.1, p.2)).map Prod.fst).Nodup := by
    rw [List.map_map]; exact hs
  have hr' : ((stock.map fun p => (pdNormalize p.1, p.2)).map Prod.fst).Nodup := by
    rw [List.map_map]; exact hr
  have h1 := innerJoin_length_le_left (sent.map fun p => (pdNormalize p.1, p.2))
    (stock.map fun p => (pdNormalize p.1, p.2)) (fun a b => (a.1, a.2, b.2)) hr'
  have h2 := innerJoin_length_le_right (sent.map fun p => (pdNormalize p.1, p.2))
    (stock.map fun p => (pdNormalize p.1, p.2)) (fun a b => (a.1, a.2, b.2)) hs'
  rw [List.length_map] at h1 h2
  exact Nat.le_min.mpr ⟨h1, h2⟩

/-- Witness for **C4**: on the example tables (3 sentiment rows, 3 return rows,
2 shared dates) the merged count is at most `min 3 3`. -/
theorem merge_data_count_le_min_witness :
    (merge_data exSentiment exReturns).length ≤ min exSentiment.length exReturns.length :=
  merge_data_count_le_min exSentiment exReturns (by decide) (by decide)

/-- **C8**: inputs with disjoint (normalized) date sets merge to a zero-length
result without raising, the empty outcome is flagged with the warning message,
and no non-empty outcome ever produces that warning message, so callers can
distinguish zero overlap from data present. -/
theorem merge_data_empty_flagged
    (sent : List (PyDateTime × ℚ)) (stock : List (PyDateTime × Option ℚ))
    (h : ∀ d ∈ sent.map fun p => pdNormalize p.1,
      d ∉ stock.map fun p => pdNormalize p.1) :
    merge_data sent stock = [] ∧
    mergeMessage (merge_data sent stock) =
      "[Warning] Merged DataFrame is empty. Check date alignment and input data." ∧
    ∀ (s' : List (PyDateTime × ℚ)) (r' : List (PyDateTime × Option ℚ)),
      merge_data s' r' ≠ [] →
      mergeMessage (merge_data s' r') ≠
        "[Warning] Merged DataFrame is empty. Check date alignment and input data." := by
  have hnil := merge_data_eq_nil_of_disjoint sent stock h
  refine ⟨hnil, by rw [hnil]; rfl, ?_⟩
  intro s' r' hne
  rw [mergeMessage, if_neg (by simpa [List.isEmpty_iff] using hne)]
  exact infoMessage_ne_warning _

/-- Witness for **C8**: sentiment dates `{2021-02-01}` and return dates
`{2021-03-01}` have empty intersection; the merge is empty and warned. -/
theorem merge_data_empty_flagged_witness :
    merge_data [(feb1, 1/2)] [(mar1, some 0)] = [] ∧
    mergeMessage (merge_data [(feb1, 1/2)] [(mar1, some 0)]) =
      "[Warning] Merged DataFrame is empty. Check date alignment and input data." ∧
    ∀ (s' : List (PyDateTime × ℚ)) (r' : List (PyDateTime × Option ℚ)),
      merge_data s' r' ≠ [] →
      mergeMessage (merge_data s' r') ≠
        "[Warning] Merged DataFrame is empty. Check date alignment and input data." :=
  merge_data_empty_flagged [(feb1, 1/2)] [(mar1, some 0)] (by decide)

/-- **C6**: a zero close immediately preceding a bar (in sorted order) does not
raise; the division yields a non-finite float, surfaced as the undefined
return value at that position. -/
theorem zero_prior_close_is_undefined
    (bars : List (PyDateTime × ℚ)) (i : Nat) (c : ℚ)
    (hp : ((List.insertionSort barLe bars).map Prod.snd)[i]? = some 0)
    (hc : ((List.insertionSort barLe bars).map Prod.snd)[i + 1]? = some c) :
    ((calculate_returns bars).map Prod.snd)[i + 1]? = some none := by
  rw [calculate_returns_map_snd]
  have h := pctChange_get _ i 0 c hp hc
  simpa using h

/-- Witness for **C6**: a price series whose first close is zero; the second
bar's return is the undefined value. -/
theorem zero_prior_close_is_undefined_witness :
    ((calculate_returns [(jan1, 0), (jan2, 5)]).map Prod.snd)[0 + 1]? = some none :=
  zero_prior_close_is_undefined [(jan1, 0), (jan2, 5)] 0 5
    (by norm_num [List.insertionSort, List.orderedInsert, barLe, dtLe, dateKey, jan1, jan2])
    (by norm_num [List.insertionSort, List.orderedInsert, barLe, dtLe, dateKey, jan1, jan2])

/-- **C7**: `aggregate_sentiment` groups by the exact timestamp held in the
date cell, not by calendar date: two records on the same calendar day
(2021-01-15) at 09:00 and 17:00 produce two output rows carrying their own
sentiments, not one row with the daily mean 1/10; a `NaT` record is excluded
from every group. -/
theorem aggregate_sentiment_groups_by_timestamp :
    aggregate_sentiment [(some jan15at9, 2/5), (some jan15at17, -1/5), (none, 1)] =
      [(jan15at9, 2/5), (jan15at17, -1/5)] ∧
    pdNormalize jan15at9 = pdNormalize jan15at17 ∧
    jan15at9 ≠ jan15at17 := by
  refine ⟨?_, by decide, by decide⟩
  simp +decide [aggregate_sentiment, aggKeys, groupMean, jan15at9, jan15at17, dtLe, dateKey]
